import Mathlib

/-!
Shallow embedding of `vinted_scanner_github.py` (repository cam71101/vinted-scanner).

The script scans a marketplace search API for listings matching configured
queries, notifies a Telegram chat about listings whose identifier is not in a
persisted "seen" set, and saves the updated set to a GitHub Gist.

Python values are modelled with typed records: dictionary keys that may be
absent become `Option` fields, a direct subscript `d[k]` on a possibly-absent
key becomes a match that raises `PyError.keyError k`, and `dict.get(k, v)`
becomes `Option.getD`. Network interactions are modelled by oracles packaged
in a `World` value: each oracle gives the outcome the remote side would
produce for a given call, so the functions below are the script's control
flow over those outcomes.
-/

set_option autoImplicit false

namespace VintedScanner

/-- Python truthiness of an optional string configuration value such as
`os.environ.get(...)`: `None` and the empty string are falsy. -/
def truthyStr : Option String → Bool
  | none => false
  | some s => !(s == "")

/-- Configuration read from the environment at module import
(`TELEGRAM_BOT_TOKEN`, `TELEGRAM_CHAT_ID`, `GITHUB_TOKEN`, `GIST_ID`),
each possibly unset. -/
structure Config where
  telegram_bot_token : Option String
  telegram_chat_id : Option String
  github_token : Option String
  gist_id : Option String
  deriving DecidableEq

/-- Line 94: `if not TELEGRAM_BOT_TOKEN or not TELEGRAM_CHAT_ID`. -/
def telegramConfigured (cfg : Config) : Bool :=
  truthyStr cfg.telegram_bot_token && truthyStr cfg.telegram_chat_id

/-- Lines 23 and 45: `if not GITHUB_TOKEN or not GIST_ID`. -/
def gistConfigured (cfg : Config) : Bool :=
  truthyStr cfg.github_token && truthyStr cfg.gist_id

/-- A listing identifier as found in the catalog JSON: a string or an
integer (the spec: "string or integer, normalized to string"). -/
inductive IdVal
  | intId (n : Int)
  | strId (s : String)
  deriving DecidableEq

/-- Line 241: `str(item['id'])` — Python `str` normalization. -/
def idStr : IdVal → String
  | .intId n => toString n
  | .strId s => s

/-- The `price` value of a listing: either a dict carrying an `amount` key
(line 112: `isinstance(price_data, dict) and 'amount' in price_data`) or
some other value rendered with `str(...)` (line 115). -/
inductive PriceVal
  | amount (a : String)
  | raw (s : String)
  deriving DecidableEq

/-- The `photo` value of a listing, a (truthy, i.e. non-empty) dict whose
`url` key may be absent (line 134: `item['photo'].get('url', '')`). -/
structure Photo where
  url : Option String
  deriving DecidableEq

/-- One listing record from the catalog (or detail) JSON. Every field the
script reads is present; `none` models an absent key. An `item['photo']`
that is a present-but-empty (falsy) dict behaves exactly like an absent one
at line 133 (`if item.get('photo'):`), so it is modelled as `none`. -/
structure Item where
  id : Option IdVal
  title : Option String
  price : Option PriceVal
  brand_title : Option String
  size_title : Option String
  status : Option String
  description : Option String
  color : Option String
  photo : Option Photo
  url : Option String
  deriving DecidableEq

/-- A configured query. Only its `search_text` key is ever read by the
script (line 227, for logging); the mapping itself is forwarded verbatim to
the catalog endpoint, whose behaviour the `World.search` oracle captures. -/
structure Query where
  search_text : Option String
  deriving DecidableEq

/-- The parsed JSON body of a 200 catalog response, assumed (as the endpoint
guarantees) to be a JSON object: `truthy` is the Python truthiness of that
object (line 232: `if not result:`; a dict is falsy iff empty) and `items`
is `result.get('items', [])` (line 236). -/
structure CatalogResp where
  truthy : Bool
  items : List Item
  deriving DecidableEq

/-- Outcome of the network part of one catalog search (lines 186-208):
a 200 response whose body parses to `some` JSON object (`none` when
`response.json()` raises, which the enclosing `try` catches), a non-200
status, or a transport exception. -/
inductive SearchNet
  | status200 (body : Option CatalogResp)
  | statusOther (code : Nat)
  | transportError
  deriving DecidableEq

/-- `search_vinted` (lines 184-208): returns the parsed body on a 200
response and `None` on a non-success status, a transport error, or an
unparsable body (all caught by the function's own `try`/`except`). -/
def search_vinted : SearchNet → Option CatalogResp
  | .status200 body => body
  | .statusOther _ => none
  | .transportError => none

/-- Outcome of the gist fetch in `load_seen_items` (lines 26-41): the GET or
`raise_for_status` raising, `response.json()` raising, the
`['files']['vinted_seen_items.json']['content']` extraction or
`json.loads` raising, or success with the stored list of identifiers. -/
inductive GistLoad
  | fetchError
  | parseError
  | extractError
  | ok (items : List String)
  deriving DecidableEq

/-- `load_seen_items` (lines 21-41): an empty set when the store is not
configured, the stored identifiers as a set on success (`set(seen_items)`,
line 38), and an empty set on any caught failure (lines 39-41). -/
def load_seen_items (cfg : Config) (g : GistLoad) : Finset String :=
  if gistConfigured cfg = false then ∅
  else
    match g with
    | .ok items => items.toFinset
    | _ => ∅

/-- `save_seen_items` (lines 43-66): a no-op when the store is not
configured, otherwise one PATCH overwriting the document with the full set;
a PATCH failure is caught and logged (lines 65-66) and changes nothing
observable. Returns whether the PATCH was attempted. -/
def save_seen_items (cfg : Config) (_seen : Finset String) : Bool :=
  gistConfigured cfg

/-- An exception escaping a modelled code path. The typed embedding makes
`KeyError` (subscripting an absent dictionary key) the one uncaught
exception class the script can raise. -/
inductive PyError
  | keyError (k : String)
  deriving DecidableEq

/-- One outbound Telegram HTTP call: `sendPhoto` with a photo url and a
caption (lines 136-144) or `sendMessage` with a text (lines 149-156). -/
inductive SendCall
  | sendPhoto (photoUrl : String) (caption : String)
  | sendMessage (text : String)
  deriving DecidableEq

/-- Result of one `send_telegram_message` invocation that did not raise:
the delivery calls attempted, and whether the `except` branch at lines
158-159 logged an error (i.e. whether the attempted post raised). -/
structure NotifyResult where
  calls : List SendCall
  errorLogged : Bool
  deriving DecidableEq

/-- Lines 99-101: truncate a description longer than 300 characters to its
first 297 characters followed by `'...'` (`description[:297] + '...'`);
shorter descriptions pass through unchanged. -/
def truncateDescription (d : String) : String :=
  if d.length > 300 then (d.toList.take 297).asString ++ "..." else d

/-- Lines 104-106: `color = 'N/A'` unless `item.get('color')` is truthy.
The script computes this value but never interpolates it into the message
(lines 117-129); it is kept for fidelity. -/
def colorText (c : Option String) : String :=
  match c with
  | none => "N/A"
  | some s => if s == "" then "N/A" else s

/-- Lines 109-115: `price = 'N/A'` unless `item.get('price')` is truthy; a
dict with an `amount` key renders as `£`-prefixed amount, anything else
through `str(...)` (an empty-string price is falsy and stays `N/A`). -/
def priceText (p : Option PriceVal) : String :=
  match p with
  | none => "N/A"
  | some (.amount a) => "£" ++ a
  | some (.raw s) => if s == "" then "N/A" else s

/-- Lines 133-135: the photo url that `sendPhoto` would use — present only
when `item.get('photo')` is truthy and `item['photo'].get('url', '')` is a
non-empty string. -/
def photoUrlToSend (item : Item) : Option String :=
  match item.photo with
  | none => none
  | some p =>
    match p.url with
    | none => none
    | some u => if u == "" then none else some u

/-- The notification message f-string of lines 117-129, with the title and
url arguments already extracted (their subscripts are what can raise). -/
def mkMessage (item : Item) (title url : String) : String :=
  "🆕 New Vinted Item!\n\n📌 " ++ title ++
  "\n💰 Price: " ++ priceText item.price ++
  "\n👕 Brand: " ++ (item.brand_title.getD "N/A") ++
  "\n📏 Size: " ++ (item.size_title.getD "N/A") ++
  "\n✨ Condition: " ++ (item.status.getD "N/A") ++
  "\n\n📝 Description:\n" ++
  truncateDescription (item.description.getD "No description") ++
  "\n\n🔗 " ++ url ++ "\n"

/-- `send_telegram_message` (lines 92-159). `postRaises` is the oracle for
whether the one HTTP post attempted inside the `try` raises. When it does,
control jumps to the `except` at line 158 which only logs, so the attempted
call list is unaffected; only `errorLogged` records it. The message
construction at lines 117-129 is OUTSIDE the `try`, so `item['title']`
(line 119) and `item['url']` (line 128) raise an uncaught `KeyError` when
the key is absent — `title` is evaluated first in the f-string. -/
def send_telegram_message (cfg : Config) (postRaises : Bool) (item : Item) :
    Except PyError NotifyResult :=
  if telegramConfigured cfg = false then .ok ⟨[], false⟩
  else
    match item.title with
    | none => .error (.keyError "title")
    | some title =>
      match item.url with
      | none => .error (.keyError "url")
      | some url =>
        match photoUrlToSend item with
        | some purl => .ok ⟨[.sendPhoto purl (mkMessage item title url)], postRaises⟩
        | none => .ok ⟨[.sendMessage (mkMessage item title url)], postRaises⟩

/-- Python `dict.update` (line 250: `item.update(full_item)`) restricted to
the fields the script reads: a key present in the detail record overwrites
the base, an absent key leaves the base value. -/
def updField {α : Type} : Option α → Option α → Option α
  | b, none => b
  | _, some v => some v

/-- Field-wise `dict.update` of one listing record by a detail record. -/
def dictUpdate (base det : Item) : Item :=
  { id := updField base.id det.id,
    title := updField base.title det.title,
    price := updField base.price det.price,
    brand_title := updField base.brand_title det.brand_title,
    size_title := updField base.size_title det.size_title,
    status := updField base.status det.status,
    description := updField base.description det.description,
    color := updField base.color det.color,
    photo := updField base.photo det.photo,
    url := updField base.url det.url }

/-- The oracles for every remote interaction of one run: the gist fetch
outcome, the catalog search outcome per query index, the detail fetch
outcome per listing identifier (`none` covers a non-200 status, an
exception, and a falsy `data.get('item', {})`, all of which leave the base
record unchanged at line 248), and whether the Telegram post for a given
identifier raises. -/
structure World where
  gist : GistLoad
  search : Nat → SearchNet
  details : String → Option Item
  tgPostRaises : String → Bool

/-- `get_item_details` (lines 68-90) as observed through its oracle:
`Some` enriched record on a 200 response with a truthy `item` object,
`None` on any failure (all caught inside the function). -/
def get_item_details (w : World) (item_id : String) : Option Item :=
  w.details item_id

/-- Mutable state of one `main` run: the working seen set, the novel-item
counter, the trace of notifier invocations (identifier and result, in
order), the trace of query indices for which `search_vinted` was invoked,
and the trace of sleep durations. The script contains no `time.sleep`
call, so no step ever appends to `sleeps`. -/
structure ScanState where
  seen : Finset String
  newItemsFound : Nat
  notifs : List (String × NotifyResult)
  searched : List Nat
  sleeps : List Nat
  deriving DecidableEq

/-- Lines 246-256: enrich a novel listing with its detail record when the
detail fetch yields one, set its canonical url, and invoke the notifier. -/
def notifyItem (cfg : Config) (w : World) (item : Item) (item_id : String) :
    Except PyError NotifyResult :=
  send_telegram_message cfg (w.tgPostRaises item_id)
    { (match get_item_details w item_id with
       | some full => dictUpdate item full
       | none => item) with
      url := some ("https://www.vinted.co.uk/items/" ++ item_id) }

/-- Lines 240-262, one iteration of the inner loop: normalize the
identifier (`str(item['id'])`, a `KeyError` when absent), skip an
already-seen listing (printing its `title`, a `KeyError` when absent),
and otherwise notify, mark seen, and count (printing its `title` first,
line 244). -/
def processItem (cfg : Config) (w : World) (st : ScanState) (item : Item) :
    Except PyError ScanState :=
  match item.id with
  | none => .error (.keyError "id")
  | some idv =>
    if idStr idv ∈ st.seen then
      match item.title with
      | none => .error (.keyError "title")
      | some _ => .ok st
    else
      match item.title with
      | none => .error (.keyError "title")
      | some _ =>
        match notifyItem cfg w item (idStr idv) with
        | .error e => .error e
        | .ok nres =>
          .ok { st with
                seen := insert (idStr idv) st.seen,
                newItemsFound := st.newItemsFound + 1,
                notifs := st.notifs ++ [(idStr idv, nres)] }

/-- The inner loop of lines 240-262 over one result batch. -/
def processItems (cfg : Config) (w : World) : ScanState → List Item →
    Except PyError ScanState
  | st, [] => .ok st
  | st, item :: rest =>
    match processItem cfg w st item with
    | .error e => .error e
    | .ok st1 => processItems cfg w st1 rest

/-- The per-query loop of lines 226-262, carrying the enumeration index.
A `None` search result (line 232: also a falsy 200 body) contributes
nothing and the loop continues with the next query. -/
def runQueries (cfg : Config) (w : World) : ScanState → Nat → List Query →
    Except PyError ScanState
  | st, _, [] => .ok st
  | st, i, _q :: qs =>
    match search_vinted (w.search i) with
    | none => runQueries cfg w { st with searched := st.searched ++ [i] } (i + 1) qs
    | some r =>
      if r.truthy then
        match processItems cfg w { st with searched := st.searched ++ [i] } r.items with
        | .error e => .error e
        | .ok st1 => runQueries cfg w st1 (i + 1) qs
      else runQueries cfg w { st with searched := st.searched ++ [i] } (i + 1) qs

/-- The observable outcome of a `main` run that did not raise: the early
return for an empty query list (lines 214-216), or the final state at the
report step together with whether the save PATCH was attempted. -/
inductive MainResult
  | noQueries
  | done (st : ScanState) (saveAttempted : Bool)
  deriving DecidableEq

/-- `main` (lines 210-269): early return when no queries are configured,
otherwise load the seen set, process every query, save, and report. There
is no `try`/`except` in `main`, so any exception from the loop escapes to
the top level of the process. -/
def main (cfg : Config) (queries : List Query) (w : World) :
    Except PyError MainResult :=
  if queries.isEmpty then .ok .noQueries
  else
    match runQueries cfg w
        { seen := load_seen_items cfg w.gist, newItemsFound := 0,
          notifs := [], searched := [], sleeps := [] } 0 queries with
    | .error e => .error e
    | .ok st => .ok (.done st (save_seen_items cfg st.seen))

/-- Process exit status: a Python script that runs to completion exits 0;
an uncaught exception terminates it with a traceback and a non-zero
status. -/
def processExitCode (r : Except PyError MainResult) : Nat :=
  match r with
  | .ok _ => 0
  | .error _ => 1

/-- The string-normalized identifiers of the listings in one batch. -/
def itemIds (items : List Item) : List String :=
  items.filterMap (fun it => it.id.map idStr)

/-- The listings `main` iterates over for one search outcome: the `items`
of a truthy 200 body, nothing otherwise. -/
def respItems (n : SearchNet) : List Item :=
  match search_vinted n with
  | none => []
  | some r => if r.truthy then r.items else []

/-- The set of string-normalized identifiers of every listing returned by
the run's successful queries, for queries enumerated from index `i`. -/
def observedIds (w : World) : Nat → List Query → Finset String
  | _, [] => ∅
  | i, _ :: qs => (itemIds (respItems (w.search i))).toFinset ∪ observedIds w (i + 1) qs

/-- A listing record carrying the two keys `main`'s novel-item path
subscripts directly (`id` at line 241, `title` at lines 244/262; `url` is
set by `main` itself at line 253 before the notifier runs). -/
def itemWellFormed (it : Item) : Bool :=
  it.id.isSome && it.title.isSome

/-- Every listing of one batch is well-formed. -/
def itemsWellFormed (l : List Item) : Bool :=
  l.all itemWellFormed

/-- Every listing of every batch the run would iterate over is well-formed,
for queries enumerated from the given index. -/
def searchesWellFormed (w : World) : Nat → List Query → Bool
  | _, [] => true
  | i, _ :: qs => itemsWellFormed (respItems (w.search i)) && searchesWellFormed w (i + 1) qs

/-- Projection of a run outcome to the data the persist step receives and
the novel count, `none` when the run raised. -/
def seenCountOf (r : Except PyError MainResult) : Option (Finset String × Nat) :=
  match r with
  | .ok (.done st _) => some (st.seen, st.newItemsFound)
  | _ => none

/-- Projection of a run outcome to its final state, `none` when the run
raised or had no configured queries. -/
def donePart (r : Except PyError MainResult) : Option ScanState :=
  match r with
  | .ok (.done st _) => some st
  | _ => none

/-- A configuration with all four credentials set. -/
def cfgAll : Config :=
  { telegram_bot_token := some "bot-token", telegram_chat_id := some "chat-id",
    github_token := some "gh-token", gist_id := some "gist-id" }

/-- A configuration with the Telegram credentials set but the store
credentials absent. -/
def cfgNoStore : Config :=
  { telegram_bot_token := some "bot-token", telegram_chat_id := some "chat-id",
    github_token := none, gist_id := none }

/-- A listing with integer id 1 and a title, no other keys. -/
def itemOne : Item :=
  { id := some (.intId 1), title := some "Item One", price := none,
    brand_title := none, size_title := none, status := none,
    description := none, color := none, photo := none, url := none }

/-- A listing with integer id 2 and a title, no other keys. -/
def itemTwo : Item :=
  { id := some (.intId 2), title := some "Item Two", price := none,
    brand_title := none, size_title := none, status := none,
    description := none, color := none, photo := none, url := none }

/-- A listing record with no `id` key. -/
def itemNoId : Item :=
  { id := none, title := some "No Id", price := none,
    brand_title := none, size_title := none, status := none,
    description := none, color := none, photo := none, url := none }

/-- A listing record with an id and a url but no `title` key. -/
def itemNoTitle : Item :=
  { id := some (.intId 3), title := none, price := none,
    brand_title := none, size_title := none, status := none,
    description := none, color := none, photo := none,
    url := some "https://www.vinted.co.uk/items/3" }

/-- A listing with a photo whose url is non-empty. -/
def itemWithPhoto : Item :=
  { id := some (.intId 4), title := some "With Photo", price := none,
    brand_title := none, size_title := none, status := none,
    description := none, color := none, photo := some ⟨some "https://img/4.jpg"⟩,
    url := some "https://www.vinted.co.uk/items/4" }

/-- The single query of the end-to-end scenario. -/
def qJacket : Query := ⟨some "jacket"⟩

/-- The world of the end-to-end scenario: the stored set holds `"1"`, the
one query returns items 1 and 2, detail fetches fail, posts succeed. -/
def worldJacket : World :=
  { gist := .ok ["1"],
    search := fun _ => .status200 (some ⟨true, [itemOne, itemTwo]⟩),
    details := fun _ => none,
    tgPostRaises := fun _ => false }

/-- A world whose one query returns the same listing twice. -/
def worldDup : World :=
  { gist := .ok [],
    search := fun _ => .status200 (some ⟨true, [itemTwo, itemTwo]⟩),
    details := fun _ => none,
    tgPostRaises := fun _ => false }

/-- A world whose one query returns a listing record with no `id` key. -/
def worldNoId : World :=
  { gist := .ok [],
    search := fun _ => .status200 (some ⟨true, [itemNoId]⟩),
    details := fun _ => none,
    tgPostRaises := fun _ => false }

/-- A world whose first query fails with a 500 status and whose second
query succeeds with one listing. -/
def worldFirstFails : World :=
  { gist := .fetchError,
    search := fun i => if i == 0 then .statusOther 500 else .status200 (some ⟨true, [itemTwo]⟩),
    details := fun _ => none,
    tgPostRaises := fun _ => false }

/-- A 301-character description, one character over the truncation bound. -/
def longDescription : String := (List.replicate 301 'a').asString

/-- A short description, under the truncation bound. -/
def shortDescription : String := "short description"

/-! Characterization lemmas for the orchestrator's steps. -/

/-- A non-raising `processItem` step either skips an already-seen listing,
leaving the state unchanged, or notifies a novel one, inserting its
identifier, bumping the counter, and appending the notifier invocation to
the trace; in both cases the listing carried `id` and `title` keys. -/
theorem processItem_ok_cases {cfg : Config} {w : World} {st : ScanState}
    {it : Item} {st' : ScanState} (h : processItem cfg w st it = .ok st') :
    ∃ idv, it.id = some idv ∧ it.title.isSome = true ∧
      ((idStr idv ∈ st.seen ∧ st' = st) ∨
       (idStr idv ∉ st.seen ∧ ∃ nres,
         notifyItem cfg w it (idStr idv) = .ok nres ∧
         st' = { st with
                 seen := insert (idStr idv) st.seen,
                 newItemsFound := st.newItemsFound + 1,
                 notifs := st.notifs ++ [(idStr idv, nres)] })) := by
  unfold processItem at h
  split at h
  next hid => exact absurd h (by simp)
  next idv hid =>
    split at h
    next hm =>
      split at h
      next ht => exact absurd h (by simp)
      next t ht =>
        simp only [Except.ok.injEq] at h
        exact ⟨idv, hid, by simp [ht], Or.inl ⟨hm, h.symm⟩⟩
    next hm =>
      split at h
      next ht => exact absurd h (by simp)
      next t ht =>
        split at h
        next e hn => exact absurd h (by simp)
        next nres hn =>
          simp only [Except.ok.injEq] at h
          exact ⟨idv, hid, by simp [ht], Or.inr ⟨hm, nres, hn, h.symm⟩⟩

/-- Unfolding `itemIds` over a listing whose `id` key is present. -/
theorem itemIds_cons_some {it : Item} {idv : IdVal} (h : it.id = some idv)
    (l : List Item) : itemIds (it :: l) = idStr idv :: itemIds l := by
  simp [itemIds, h]

/-- State facts of a non-raising inner loop over one batch: the seen set
grows by exactly the batch's identifiers, the search and sleep traces are
untouched, and the set of notified identifiers grows by exactly the
batch's identifiers that were not already seen. -/
theorem processItems_ok {cfg : Config} {w : World} :
    ∀ (l : List Item) (st st' : ScanState),
      processItems cfg w st l = .ok st' →
      st'.seen = st.seen ∪ (itemIds l).toFinset ∧
      st'.searched = st.searched ∧
      st'.sleeps = st.sleeps ∧
      (st'.notifs.map Prod.fst).toFinset =
        (st.notifs.map Prod.fst).toFinset ∪ ((itemIds l).toFinset \ st.seen)
  | [], st, st', h => by
    simp only [processItems, Except.ok.injEq] at h
    subst h
    simp [itemIds]
  | item :: rest, st, st', h => by
    rw [processItems] at h
    cases hp : processItem cfg w st item with
    | error e => rw [hp] at h; exact absurd h (by simp)
    | ok st1 =>
      rw [hp] at h
      obtain ⟨hseen, hsearched, hsleeps, hnotifs⟩ := processItems_ok rest st1 st' h
      obtain ⟨idv, hid, -, hcases⟩ := processItem_ok_cases hp
      rw [itemIds_cons_some hid]
      rcases hcases with ⟨hm, rfl⟩ | ⟨hm, nres, -, rfl⟩
      · refine ⟨?_, hsearched, hsleeps, ?_⟩
        · rw [hseen]
          ext x
          by_cases hx : x = idStr idv <;> simp [hx, hm]
        · rw [hnotifs]
          ext x
          by_cases hx : x = idStr idv <;> simp [hx, hm]
      · refine ⟨?_, hsearched, hsleeps, ?_⟩
        · rw [hseen]
          ext x
          by_cases hx : x = idStr idv <;> simp [hx]
        · rw [hnotifs]
          ext x
          by_cases hx : x = idStr idv <;> simp [hx, hm]

/-- The listings iterated for a failed search are none. -/
theorem respItems_of_fail {n : SearchNet} (h : search_vinted n = none) :
    respItems n = [] := by
  simp [respItems, h]

/-- The listings iterated for a successful search with a truthy body are
the body's `items`. -/
theorem respItems_of_ok {n : SearchNet} {r : CatalogResp}
    (h : search_vinted n = some r) (ht : r.truthy = true) :
    respItems n = r.items := by
  simp [respItems, h, ht]

/-- The listings iterated for a successful search with a falsy body are
none. -/
theorem respItems_of_falsy {n : SearchNet} {r : CatalogResp}
    (h : search_vinted n = some r) (ht : r.truthy = false) :
    respItems n = [] := by
  simp [respItems, h, ht]

/-- State facts of a non-raising per-query loop from index `i`: the seen
set grows by exactly the observed identifiers, every query's search was
performed (in order), no sleep is ever recorded, and the notified
identifiers grow by exactly the observed identifiers not already seen. -/
theorem runQueries_ok {cfg : Config} {w : World} :
    ∀ (qs : List Query) (i : Nat) (st st' : ScanState),
      runQueries cfg w st i qs = .ok st' →
      st'.seen = st.seen ∪ observedIds w i qs ∧
      st'.searched = st.searched ++ List.range' i qs.length ∧
      st'.sleeps = st.sleeps ∧
      (st'.notifs.map Prod.fst).toFinset =
        (st.notifs.map Prod.fst).toFinset ∪ (observedIds w i qs \ st.seen)
  | [], i, st, st', h => by
    simp only [runQueries, Except.ok.injEq] at h
    subst h
    simp [observedIds]
  | q :: qs, i, st, st', h => by
    rw [runQueries] at h
    split at h
    next hs =>
      obtain ⟨hseen, hsearched, hsleeps, hnotifs⟩ := runQueries_ok qs (i + 1) _ st' h
      rw [observedIds, respItems_of_fail hs]
      refine ⟨by simpa [itemIds] using hseen, ?_, by simpa using hsleeps,
        by simpa [itemIds] using hnotifs⟩
      rw [hsearched]
      simp only [List.length_cons, List.range'_succ, ScanState.searched,
        List.append_assoc, List.singleton_append]
    next r hs =>
      split at h
      next ht =>
        split at h
        next e hp => exact absurd h (by simp)
        next st1 hp =>
          obtain ⟨hseen1, hsearched1, hsleeps1, hnotifs1⟩ := processItems_ok r.items _ st1 hp
          obtain ⟨hseen2, hsearched2, hsleeps2, hnotifs2⟩ := runQueries_ok qs (i + 1) st1 st' h
          rw [observedIds, respItems_of_ok hs ht]
          refine ⟨?_, ?_, ?_, ?_⟩
          · rw [hseen2, hseen1]
            simp only [ScanState.seen]
            rw [Finset.union_assoc]
          · rw [hsearched2, hsearched1]
            simp only [List.length_cons, List.range'_succ, ScanState.searched,
              List.append_assoc, List.singleton_append]
          · rw [hsleeps2, hsleeps1]
          · rw [hnotifs2, hnotifs1, hseen1]
            simp only [ScanState.seen, ScanState.notifs]
            ext x
            simp only [Finset.mem_union, Finset.mem_sdiff, List.mem_toFinset]
            constructor
            · rintro ((hx | ⟨hx, hns⟩) | ⟨hx, hns⟩)
              · exact Or.inl hx
              · exact Or.inr ⟨Or.inl hx, hns⟩
              · exact Or.inr ⟨Or.inr hx, fun hc => hns (Or.inl hc)⟩
            · rintro (hx | ⟨hx | hx, hns⟩)
              · exact Or.inl (Or.inl hx)
              · exact Or.inl (Or.inr ⟨hx, hns⟩)
              · by_cases hmem : x ∈ itemIds r.items
                · exact Or.inl (Or.inr ⟨hmem, hns⟩)
                · exact Or.inr ⟨hx, fun hc => hc.elim hns hmem⟩
      next ht =>
        obtain ⟨hseen, hsearched, hsleeps, hnotifs⟩ := runQueries_ok qs (i + 1) _ st' h
        rw [observedIds, respItems_of_falsy hs (by simpa using ht)]
        refine ⟨by simpa [itemIds] using hseen, ?_, by simpa using hsleeps,
          by simpa [itemIds] using hnotifs⟩
        rw [hsearched]
        simp only [List.length_cons, List.range'_succ, ScanState.searched,
          List.append_assoc, List.singleton_append]

/-- The notified-identifier invariant through one batch: a duplicate-free
notification trace whose identifiers all lie in the working seen set stays
that way, because an identifier is inserted into the seen set in the same
iteration that notifies it. -/
theorem processItems_inv {cfg : Config} {w : World} :
    ∀ (l : List Item) (st st' : ScanState),
      processItems cfg w st l = .ok st' →
      (st.notifs.map Prod.fst).Nodup →
      (∀ a ∈ st.notifs.map Prod.fst, a ∈ st.seen) →
      (st'.notifs.map Prod.fst).Nodup ∧
        ∀ a ∈ st'.notifs.map Prod.fst, a ∈ st'.seen
  | [], st, st', h, hnd, hsub => by
    simp only [processItems, Except.ok.injEq] at h
    subst h
    exact ⟨hnd, hsub⟩
  | item :: rest, st, st', h, hnd, hsub => by
    rw [processItems] at h
    cases hp : processItem cfg w st item with
    | error e => rw [hp] at h; exact absurd h (by simp)
    | ok st1 =>
      rw [hp] at h
      obtain ⟨idv, hid, -, hcases⟩ := processItem_ok_cases hp
      rcases hcases with ⟨hm, rfl⟩ | ⟨hm, nres, -, rfl⟩
      · exact processItems_inv rest _ st' h hnd hsub
      · apply processItems_inv rest _ st' h
        · simp only [ScanState.notifs, List.map_append, List.map_cons, List.map_nil]
          rw [List.nodup_append]
          refine ⟨hnd, List.nodup_singleton _, ?_⟩
          intro a ha hc
          simp only [List.mem_singleton] at hc
          subst hc
          exact hm (hsub _ ha)
        · intro a ha
          simp only [ScanState.notifs, ScanState.seen, List.map_append, List.map_cons,
            List.map_nil, List.mem_append, List.mem_singleton] at ha ⊢
          rcases ha with ha | ha
          · exact Finset.mem_insert_of_mem (hsub a ha)
          · subst ha
            exact Finset.mem_insert_self _ _

/-- Updating a record cannot remove its `title` key. -/
theorem dictUpdate_title_isSome {base det : Item} (h : base.title.isSome = true) :
    (dictUpdate base det).title.isSome = true := by
  cases hd : det.title <;> simp [dictUpdate, updField, hd, h]

/-- The notifier does not raise on a payload that carries its `title` and
`url` keys (the only two it subscripts directly). -/
theorem send_telegram_message_total {cfg : Config} {pr : Bool} {it : Item}
    (ht : it.title.isSome = true) (hu : it.url.isSome = true) :
    ∃ r, send_telegram_message cfg pr it = .ok r := by
  obtain ⟨t, ht'⟩ := Option.isSome_iff_exists.mp ht
  obtain ⟨u, hu'⟩ := Option.isSome_iff_exists.mp hu
  simp only [send_telegram_message, ht', hu']
  split
  · exact ⟨_, rfl⟩
  · split <;> exact ⟨_, rfl⟩

/-- The notify step of the orchestrator does not raise when the base
listing carries a `title` key: enrichment cannot remove it and the
orchestrator itself sets the `url` key. -/
theorem notifyItem_total {cfg : Config} {w : World} {it : Item} {item_id : String}
    (ht : it.title.isSome = true) :
    ∃ r, notifyItem cfg w it item_id = .ok r := by
  unfold notifyItem
  apply send_telegram_message_total
  · cases hd : get_item_details w item_id with
    | none => simpa [hd] using ht
    | some full => simpa [hd] using @dictUpdate_title_isSome it full ht
  · simp

/-- One inner-loop iteration does not raise on a listing that carries `id`
and `title` keys. -/
theorem processItem_total {cfg : Config} {w : World} {st : ScanState} {it : Item}
    (hid : it.id.isSome = true) (ht : it.title.isSome = true) :
    ∃ st', processItem cfg w st it = .ok st' := by
  obtain ⟨idv, hid'⟩ := Option.isSome_iff_exists.mp hid
  obtain ⟨t, ht'⟩ := Option.isSome_iff_exists.mp ht
  obtain ⟨r, hr⟩ := @notifyItem_total cfg w it (idStr idv) ht
  simp only [processItem, hid', ht']
  split
  · exact ⟨st, rfl⟩
  · rw [hr]
    exact ⟨_, rfl⟩

/-- The inner loop does not raise on a batch of well-formed listings. -/
theorem processItems_total {cfg : Config} {w : World} :
    ∀ (l : List Item) (st : ScanState), itemsWellFormed l = true →
      ∃ st', processItems cfg w st l = .ok st'
  | [], st, _ => ⟨st, rfl⟩
  | item :: rest, st, hwf => by
    simp only [itemsWellFormed, List.all_cons, Bool.and_eq_true] at hwf
    obtain ⟨hitem, hrest⟩ := hwf
    simp only [itemWellFormed, Bool.and_eq_true] at hitem
    obtain ⟨st1, h1⟩ := @processItem_total cfg w st item hitem.1 hitem.2
    obtain ⟨st', h2⟩ := processItems_total rest st1 hrest
    refine ⟨st', ?_⟩
    rw [processItems, h1]
    exact h2

/-- The per-query loop does not raise when every batch it would iterate
over is well-formed, whatever the mix of query failures. -/
theorem runQueries_total {cfg : Config} {w : World} :
    ∀ (qs : List Query) (i : Nat) (st : ScanState),
      searchesWellFormed w i qs = true →
      ∃ st', runQueries cfg w st i qs = .ok st'
  | [], _, st, _ => ⟨st, rfl⟩
  | _q :: qs, i, st, hwf => by
    simp only [searchesWellFormed, Bool.and_eq_true] at hwf
    obtain ⟨hitems, hrest⟩ := hwf
    cases hs : search_vinted (w.search i) with
    | none =>
      obtain ⟨st', h'⟩ :=
        runQueries_total qs (i + 1) { st with searched := st.searched ++ [i] } hrest
      refine ⟨st', ?_⟩
      rw [runQueries, hs]
      exact h'
    | some r =>
      cases htr : r.truthy with
      | false =>
        obtain ⟨st', h'⟩ :=
          runQueries_total qs (i + 1) { st with searched := st.searched ++ [i] } hrest
        refine ⟨st', ?_⟩
        rw [runQueries]
        simp only [hs, htr]
        simpa using h'
      | true =>
        have hitems' : itemsWellFormed r.items = true := by
          rwa [respItems_of_ok hs htr] at hitems
        obtain ⟨st1, h1⟩ :=
          processItems_total r.items { st with searched := st.searched ++ [i] } hitems'
        obtain ⟨st', h2⟩ := runQueries_total qs (i + 1) st1 hrest
        refine ⟨st', ?_⟩
        rw [runQueries]
        simp only [hs, htr, if_true]
        rw [h1]
        exact h2

/-- The notified-identifier invariant through the whole per-query loop. -/
theorem runQueries_inv {cfg : Config} {w : World} :
    ∀ (qs : List Query) (i : Nat) (st st' : ScanState),
      runQueries cfg w st i qs = .ok st' →
      (st.notifs.map Prod.fst).Nodup →
      (∀ a ∈ st.notifs.map Prod.fst, a ∈ st.seen) →
      (st'.notifs.map Prod.fst).Nodup ∧
        ∀ a ∈ st'.notifs.map Prod.fst, a ∈ st'.seen
  | [], _, st, st', h, hnd, hsub => by
    simp only [runQueries, Except.ok.injEq] at h
    subst h
    exact ⟨hnd, hsub⟩
  | _q :: qs, i, st, st', h, hnd, hsub => by
    rw [runQueries] at h
    split at h
    next hs => exact runQueries_inv qs (i + 1) _ st' h hnd hsub
    next r hs =>
      split at h
      next ht =>
        split at h
        next e hp => exact absurd h (by simp)
        next st1 hp =>
          obtain ⟨hnd1, hsub1⟩ := processItems_inv r.items _ st1 hp hnd hsub
          exact runQueries_inv qs (i + 1) st1 st' h hnd1 hsub1
      next ht => exact runQueries_inv qs (i + 1) _ st' h hnd hsub

/-- A run that reaches the report step did so through a non-raising
per-query loop started from the loaded seen set and empty traces, and its
save flag is what `save_seen_items` answered. -/
theorem main_ok_done {cfg : Config} {qs : List Query} {w : World}
    {st : ScanState} {save : Bool}
    (h : main cfg qs w = .ok (.done st save)) :
    runQueries cfg w
      { seen := load_seen_items cfg w.gist, newItemsFound := 0,
        notifs := [], searched := [], sleeps := [] } 0 qs = .ok st ∧
    save = save_seen_items cfg st.seen := by
  unfold main at h
  split at h
  · exact absurd h (by simp)
  · cases hr : runQueries cfg w
        { seen := load_seen_items cfg w.gist, newItemsFound := 0,
          notifs := [], searched := [], sleeps := [] } 0 qs with
    | error e => rw [hr] at h; exact absurd h (by simp)
    | ok st2 =>
      rw [hr] at h
      simp only [Except.ok.injEq, MainResult.done.injEq] at h
      obtain ⟨h1, h2⟩ := h
      subst h1
      exact ⟨rfl, h2.symm⟩

/-- Claim C1: for every run that reaches the persist step, the persisted
SeenSet equals the union of the SeenSet loaded at the start of the run and
the string-normalized identifiers of every listing returned by the run's
successful queries; in particular it is a superset of the loaded SeenSet,
for any mix of query successes and failures. -/
theorem claim1_persisted_seen_union (cfg : Config) (qs : List Query)
    (w : World) (st : ScanState) (save : Bool)
    (h : main cfg qs w = .ok (.done st save)) :
    st.seen = load_seen_items cfg w.gist ∪ observedIds w 0 qs ∧
      load_seen_items cfg w.gist ⊆ st.seen := by
  obtain ⟨hr, -⟩ := main_ok_done h
  obtain ⟨hseen, -, -, -⟩ := runQueries_ok qs 0 _ st hr
  refine ⟨hseen, ?_⟩
  rw [hseen]
  exact Finset.subset_union_left

/-- Witness for C1: the end-to-end world reaches the persist step and the
theorem applies to it. -/
theorem claim1_witness :
    ∃ st save, main cfgAll [qJacket] worldJacket = .ok (.done st save) ∧
      (st.seen = load_seen_items cfgAll worldJacket.gist ∪
          observedIds worldJacket 0 [qJacket] ∧
        load_seen_items cfgAll worldJacket.gist ⊆ st.seen) :=
  ⟨_, _, rfl, claim1_persisted_seen_union cfgAll [qJacket] worldJacket _ _ rfl⟩

/-- Claim C2: with the single query `search_text = "jacket"`, a catalog
batch of items 1 and 2 and a loaded SeenSet of just `"1"`, exactly one
notification is sent (for id 2, through one delivery call), the persisted
SeenSet is exactly the two identifiers, and the reported novel count is
one. -/
theorem claim2_end_to_end_scenario :
    (∃ st, main cfgAll [qJacket] worldJacket = .ok (.done st true)) ∧
    (donePart (main cfgAll [qJacket] worldJacket)).map
      (fun st => st.notifs.map Prod.fst) = some ["2"] ∧
    (donePart (main cfgAll [qJacket] worldJacket)).map
      (fun st => st.notifs.map fun p => p.2.calls.length) = some [1] ∧
    (donePart (main cfgAll [qJacket] worldJacket)).map
      (fun st => st.seen) = some {"1", "2"} ∧
    (donePart (main cfgAll [qJacket] worldJacket)).map
      (fun st => st.newItemsFound) = some 1 := by
  refine ⟨⟨_, rfl⟩, rfl, rfl, ?_, rfl⟩
  have hrun : (donePart (main cfgAll [qJacket] worldJacket)).map (fun st => st.seen) =
      some (insert "2" {"1"}) := rfl
  rw [hrun]
  congr 1
  ext x
  simp [or_comm]

/-- Claim C3: `load_seen_items` returns an empty SeenSet rather than an
error whenever the store credentials are unconfigured or the fetch, the
response parsing, or the document extraction fails; and a run that starts
from an empty SeenSet and reaches the report step notified exactly the
observed identifiers — every listing was treated as novel. -/
theorem claim3_load_fall_open :
    (∀ cfg g, gistConfigured cfg = false → load_seen_items cfg g = ∅) ∧
    (∀ cfg g,
      g = GistLoad.fetchError ∨ g = GistLoad.parseError ∨ g = GistLoad.extractError →
      load_seen_items cfg g = ∅) ∧
    (∀ cfg qs w st save, load_seen_items cfg w.gist = ∅ →
      main cfg qs w = .ok (.done st save) →
      (st.notifs.map Prod.fst).toFinset = observedIds w 0 qs) := by
  refine ⟨?_, ?_, ?_⟩
  · intro cfg g hcfg
    simp [load_seen_items, hcfg]
  · intro cfg g hg
    unfold load_seen_items
    split
    · rfl
    · rcases hg with rfl | rfl | rfl <;> rfl
  · intro cfg qs w st save hload h
    obtain ⟨hr, -⟩ := main_ok_done h
    obtain ⟨-, -, -, hnotifs⟩ := runQueries_ok qs 0 _ st hr
    rw [hnotifs, hload]
    simp

/-- Witness for C3: an unconfigured store and two failing fetches load the
empty set, and a storeless run notifies exactly the observed listings. -/
theorem claim3_witness :
    load_seen_items cfgNoStore GistLoad.fetchError = ∅ ∧
    load_seen_items cfgAll GistLoad.parseError = ∅ ∧
    ∃ st save, main cfgNoStore [qJacket] worldJacket = .ok (.done st save) ∧
      (st.notifs.map Prod.fst).toFinset = observedIds worldJacket 0 [qJacket] :=
  ⟨claim3_load_fall_open.1 cfgNoStore GistLoad.fetchError rfl,
   claim3_load_fall_open.2.1 cfgAll GistLoad.parseError (Or.inr (Or.inl rfl)),
   _, _, rfl,
   claim3_load_fall_open.2.2 cfgNoStore [qJacket] worldJacket _ _ rfl rfl⟩

/-- Claim C4: a failed search — non-success status, transport error, or
unparsable 200 body — yields `None`, and the per-query loop then records
the search and continues with the subsequent queries over an otherwise
unchanged state (zero listings for that query); moreover every run that
reaches the report step performed the search of every configured query, in
order. -/
theorem claim4_query_isolation :
    (∀ c, search_vinted (SearchNet.statusOther c) = none) ∧
    search_vinted SearchNet.transportError = none ∧
    search_vinted (SearchNet.status200 none) = none ∧
    (∀ cfg w st i q qs, search_vinted (w.search i) = none →
      runQueries cfg w st i (q :: qs) =
        runQueries cfg w { st with searched := st.searched ++ [i] } (i + 1) qs) ∧
    (∀ cfg qs w st save, main cfg qs w = .ok (.done st save) →
      st.searched = List.range qs.length) := by
  refine ⟨fun c => rfl, rfl, rfl, ?_, ?_⟩
  · intro cfg w st i q qs hfail
    rw [runQueries, hfail]
  · intro cfg qs w st save h
    obtain ⟨hr, -⟩ := main_ok_done h
    obtain ⟨-, hsearched, -, -⟩ := runQueries_ok qs 0 _ st hr
    rw [hsearched]
    simp [List.range_eq_range']

/-- Witness for C4: a 500-status first query is skipped with zero listings
while the second query is still searched and processed. -/
theorem claim4_witness :
    search_vinted (worldFirstFails.search 0) = none ∧
    runQueries cfgAll worldFirstFails ⟨∅, 0, [], [], []⟩ 0 [qJacket, qJacket] =
      runQueries cfgAll worldFirstFails ⟨∅, 0, [], [0], []⟩ 1 [qJacket] ∧
    ∃ st save, main cfgAll [qJacket, qJacket] worldFirstFails = .ok (.done st save) ∧
      st.searched = List.range 2 :=
  ⟨rfl,
   claim4_query_isolation.2.2.2.1 cfgAll worldFirstFails
     ⟨∅, 0, [], [], []⟩ 0 qJacket [qJacket] rfl,
   _, _, rfl,
   claim4_query_isolation.2.2.2.2 cfgAll [qJacket, qJacket] worldFirstFails _ _ rfl⟩

/-- Counterexample to C5: a payload with no `title` key makes the notifier
raise a `KeyError` past its own boundary — the message construction at
lines 117-129 is outside the `try`, so a malformed payload is not caught
and logged. -/
theorem claim5_counterexample :
    send_telegram_message cfgAll true itemNoTitle =
      .error (.keyError "title") := rfl

/-- Claim C5 as amended: the notifier does not raise on a payload carrying
its `title` and `url` keys (delivery failures are caught inside its own
`try`), though a payload missing either key raises a `KeyError` past its
boundary; and for every novel listing with a `title` key, whatever the
delivery outcome oracle says, its identifier is inserted into the working
SeenSet and the novel count incremented in the same non-raising step. -/
theorem claim5_amended_notifier :
    (∀ cfg pr it, it.title.isSome = true → it.url.isSome = true →
      ∃ r, send_telegram_message cfg pr it = .ok r) ∧
    (∀ cfg w st it idv, it.id = some idv → idStr idv ∉ st.seen →
      it.title.isSome = true →
      ∃ st' nres, processItem cfg w st it = .ok st' ∧
        st'.seen = insert (idStr idv) st.seen ∧
        st'.newItemsFound = st.newItemsFound + 1 ∧
        st'.notifs = st.notifs ++ [(idStr idv, nres)]) := by
  refine ⟨fun cfg pr it ht hu => send_telegram_message_total ht hu, ?_⟩
  intro cfg w st it idv hid hm ht
  obtain ⟨st', hst'⟩ := @processItem_total cfg w st it (by simp [hid]) ht
  obtain ⟨idv2, hid2, -, hcases⟩ := processItem_ok_cases hst'
  rw [hid] at hid2
  injection hid2 with hid2
  subst hid2
  rcases hcases with ⟨hm2, -⟩ | ⟨-, nres, -, rfl⟩
  · exact absurd hm2 hm
  · exact ⟨_, nres, hst', rfl, rfl, rfl⟩

/-- Witness for C5 as amended: a well-keyed payload is notified without
raising, and a concrete novel listing is marked seen and counted. -/
theorem claim5_witness :
    (∃ r, send_telegram_message cfgAll true itemWithPhoto = .ok r) ∧
    (∃ st' nres,
      processItem cfgAll worldJacket ⟨∅, 0, [], [], []⟩ itemTwo = .ok st' ∧
      st'.seen = insert (idStr (IdVal.intId 2)) (∅ : Finset String) ∧
      st'.newItemsFound = 0 + 1 ∧
      st'.notifs = [] ++ [(idStr (IdVal.intId 2), nres)]) :=
  ⟨claim5_amended_notifier.1 cfgAll true itemWithPhoto rfl rfl,
   claim5_amended_notifier.2 cfgAll worldJacket ⟨∅, 0, [], [], []⟩ itemTwo
     (IdVal.intId 2) rfl (Finset.not_mem_empty _) rfl⟩

/-- Claim C6: in the notification message, a description longer than 300
characters is rendered as exactly its first 297 characters followed by the
3-character marker, for a total length of 300; a description of at most
300 characters passes through unmodified. -/
theorem claim6_truncation_law (d : String) :
    (d.length > 300 →
      truncateDescription d = (d.toList.take 297).asString ++ "..." ∧
      ((d.toList.take 297).asString).length = 297 ∧
      (truncateDescription d).length = 300) ∧
    (d.length ≤ 300 → truncateDescription d = d) := by
  constructor
  · intro h
    have hlen : d.toList.length = d.length := rfl
    have h297 : ((d.toList.take 297).asString).length = 297 := by
      rw [List.length_asString, List.length_take]
      omega
    refine ⟨by rw [truncateDescription, if_pos h], h297, ?_⟩
    rw [truncateDescription, if_pos h, String.length_append, h297]
    rfl
  · intro h
    rw [truncateDescription, if_neg (by omega)]

/-- Witness for C6: a 301-character description truncates to length 300
and a short description passes through. -/
theorem claim6_witness :
    (truncateDescription longDescription).length = 300 ∧
    truncateDescription shortDescription = shortDescription :=
  ⟨((claim6_truncation_law longDescription).1 (by rw [longDescription, List.length_asString, List.length_replicate]; omega)).2.2,
   (claim6_truncation_law shortDescription).2 (by decide)⟩

/-- Claim C7: when the notifier is configured and the payload carries its
`title` and `url` keys, exactly one delivery call is attempted — the
image variant when the listing has a photo with a non-empty url, the text
variant otherwise — and never both. -/
theorem claim7_delivery_single_call (cfg : Config) (pr : Bool) (it : Item)
    (t u : String) (hcfg : telegramConfigured cfg = true)
    (ht : it.title = some t) (hu : it.url = some u) :
    (∃ p, photoUrlToSend it = some p ∧
      send_telegram_message cfg pr it =
        .ok ⟨[.sendPhoto p (mkMessage it t u)], pr⟩) ∨
    (photoUrlToSend it = none ∧
      send_telegram_message cfg pr it =
        .ok ⟨[.sendMessage (mkMessage it t u)], pr⟩) := by
  cases hp : photoUrlToSend it with
  | some p =>
    exact Or.inl ⟨p, rfl, by simp [send_telegram_message, hcfg, ht, hu, hp]⟩
  | none =>
    exact Or.inr ⟨rfl, by simp [send_telegram_message, hcfg, ht, hu, hp]⟩

/-- Witness for C7: the photo-carrying listing gets exactly the one
image-variant call. -/
theorem claim7_witness :
    (∃ p, photoUrlToSend itemWithPhoto = some p ∧
      send_telegram_message cfgAll false itemWithPhoto =
        .ok ⟨[.sendPhoto p (mkMessage itemWithPhoto "With Photo"
          "https://www.vinted.co.uk/items/4")], false⟩) ∨
    (photoUrlToSend itemWithPhoto = none ∧
      send_telegram_message cfgAll false itemWithPhoto =
        .ok ⟨[.sendMessage (mkMessage itemWithPhoto "With Photo"
          "https://www.vinted.co.uk/items/4")], false⟩) :=
  claim7_delivery_single_call cfgAll false itemWithPhoto _ _ rfl rfl rfl

/-- Counterexample to C8: a catalog batch containing a listing record with
no `id` key raises a `KeyError` that propagates to the top level of the
run, and the process exits non-zero. -/
theorem claim8_counterexample :
    main cfgAll [qJacket] worldNoId = .error (.keyError "id") ∧
    processExitCode (main cfgAll [qJacket] worldNoId) = 1 :=
  ⟨rfl, rfl⟩

/-- Claim C8 as amended: for every configuration, query list, and world
whose successful catalog batches contain only well-formed listing records
(each carrying `id` and `title` keys), no exception propagates to the top
level and the process exits zero; a malformed listing record, however,
raises an uncaught `KeyError` (see the counterexample). -/
theorem claim8_amended_containment (cfg : Config) (qs : List Query) (w : World)
    (hwf : searchesWellFormed w 0 qs = true) :
    processExitCode (main cfg qs w) = 0 := by
  unfold main
  split
  · rfl
  · obtain ⟨st', h'⟩ := runQueries_total qs 0
      { seen := load_seen_items cfg w.gist, newItemsFound := 0,
        notifs := [], searched := [], sleeps := [] } hwf
    rw [h']
    rfl

/-- Witness for C8 as amended: the end-to-end world is well-formed and its
run exits zero. -/
theorem claim8_witness :
    searchesWellFormed worldJacket 0 [qJacket] = true ∧
    processExitCode (main cfgAll [qJacket] worldJacket) = 0 :=
  ⟨rfl, claim8_amended_containment cfgAll [qJacket] worldJacket rfl⟩

/-- Counterexample to C9: a run over one query whose batch holds two
listings completes with an empty sleep trace — no pacing delay of any
length is performed between the two listings or after the query. -/
theorem claim9_counterexample :
    ∃ st, main cfgAll [qJacket] worldJacket = .ok (.done st true) ∧
      st.notifs.length = 1 ∧ st.searched = [0] ∧ st.sleeps = [] :=
  ⟨_, rfl, rfl, rfl, rfl⟩

/-- Claim C9 as amended: the orchestrator performs no pacing delay at all —
the script contains no sleep call, so every run that reaches the report
step has an empty sleep trace, whatever the queries and outcomes. -/
theorem claim9_amended_no_pacing (cfg : Config) (qs : List Query) (w : World)
    (st : ScanState) (save : Bool)
    (h : main cfg qs w = .ok (.done st save)) :
    st.sleeps = [] := by
  obtain ⟨hr, -⟩ := main_ok_done h
  obtain ⟨-, -, hsleeps, -⟩ := runQueries_ok qs 0 _ st hr
  simpa using hsleeps

/-- Witness for C9 as amended: the concrete two-listing run has an empty
sleep trace. -/
theorem claim9_witness :
    ∃ st save, main cfgAll [qJacket, qJacket] worldFirstFails = .ok (.done st save) ∧
      st.sleeps = [] :=
  ⟨_, _, rfl,
   claim9_amended_no_pacing cfgAll [qJacket, qJacket] worldFirstFails _ _ rfl⟩

/-- Claim C10: within a single run that reaches the report step, at most
one notification is attempted per listing identifier — the notified
identifiers are duplicate-free — and every notified identifier is in the
final working SeenSet, because it is inserted before the next listing is
examined. -/
theorem claim10_notify_once (cfg : Config) (qs : List Query) (w : World)
    (st : ScanState) (save : Bool)
    (h : main cfg qs w = .ok (.done st save)) :
    (st.notifs.map Prod.fst).Nodup ∧
      ∀ a ∈ st.notifs.map Prod.fst, a ∈ st.seen := by
  obtain ⟨hr, -⟩ := main_ok_done h
  exact runQueries_inv qs 0 _ st hr (by simp) (by simp)

/-- Witness for C10: a batch repeating the same listing twice yields a
duplicate-free notification trace. -/
theorem claim10_witness :
    ∃ st save, main cfgAll [qJacket] worldDup = .ok (.done st save) ∧
      ((st.notifs.map Prod.fst).Nodup ∧
        ∀ a ∈ st.notifs.map Prod.fst, a ∈ st.seen) :=
  ⟨_, _, rfl, claim10_notify_once cfgAll [qJacket] worldDup _ _ rfl⟩

end VintedScanner
